import Mathlib

/-!
Verification of the S3 media upload service.

A shallow embedding of the upload pipeline of this repository, covering both
implementations that the repository ships:

* `upload.py` — the standalone FastAPI application (referred to below as the
  "standalone" service), and
* `app/routers/media.py` together with `app/main.py` — the router-based
  application (referred to below as the "media" router).

Strings are modelled as `List Char` (`Str`), byte payloads as `List Nat` with
values below 256.  Effects (the S3 client, the HTTP fetches, the renderers, the
fresh uuid and the timestamp) are passed in as explicit parameters, so every
endpoint is a pure function from its request and its collaborators to the
response it produces.
-/

/-- Strings of the embedding: Python `str` values as lists of characters. -/
abbrev Str := List Char

/-- A `fastapi.HTTPException` carries a status code and a detail string. -/
structure HTTPError where
  status : Nat
  detail : Str
deriving Repr, DecidableEq

/-- The S3 `put_object` / `upload_fileobj` effect: key, body bytes and an
optional content type; the result is either success or the exception text. -/
abbrev PutFn := Str → List Nat → Option Str → Except Str Unit

/-! ## Base64 (model of CPython `base64.b64encode` / `base64.b64decode`)

`upload.py` and `media.py` both call `base64.b64decode` on the JSON image
payload, and `media.py` calls `base64.b64encode` when building the mermaid.ink
URL.  The model below follows CPython: `b64decode` first requires the input to
be pure ASCII, then (with the default `validate=False`) discards every
character outside the base64 alphabet and the `=` pad, requires the remaining
length to be a multiple of four and decodes group-wise, with padding allowed
in the final group only (the only shapes the service ever feeds it). -/

/-- The standard base64 alphabet, in index order. -/
def b64Alphabet : List Char :=
  ['A', 'B', 'C', 'D', 'E', 'F', 'G', 'H', 'I', 'J', 'K', 'L', 'M',
   'N', 'O', 'P', 'Q', 'R', 'S', 'T', 'U', 'V', 'W', 'X', 'Y', 'Z',
   'a', 'b', 'c', 'd', 'e', 'f', 'g', 'h', 'i', 'j', 'k', 'l', 'm',
   'n', 'o', 'p', 'q', 'r', 's', 't', 'u', 'v', 'w', 'x', 'y', 'z',
   '0', '1', '2', '3', '4', '5', '6', '7', '8', '9', '+', '/']

/-- Character for a six-bit value. -/
def b64Char (n : Nat) : Char := b64Alphabet.getD n 'A'

/-- Position of a character in an alphabet, starting the count at `i`. -/
def indexInAlphabet (c : Char) : List Char → Nat → Option Nat
  | [], _ => none
  | a :: rest, i => if a = c then some i else indexInAlphabet c rest (i + 1)

/-- Six-bit value of a base64 character, `none` outside the alphabet. -/
def b64Index (c : Char) : Option Nat := indexInAlphabet c b64Alphabet 0

/-- Characters kept by CPython's `validate=False` pre-filter. -/
def isB64OrPad (c : Char) : Bool := (b64Index c).isSome || c == '='

/-- Encode one final chunk of at most three bytes (with `=` padding). -/
def encodeChunk : List Nat → List Char
  | [a, b, c] => [b64Char (a / 4), b64Char (a % 4 * 16 + b / 16),
                  b64Char (b % 16 * 4 + c / 64), b64Char (c % 64)]
  | [a, b] => [b64Char (a / 4), b64Char (a % 4 * 16 + b / 16),
               b64Char (b % 16 * 4), '=']
  | [a] => [b64Char (a / 4), b64Char (a % 4 * 16), '=', '=']
  | _ => []

/-- `base64.b64encode`: bytes to base64 characters. -/
def b64encodeList : List Nat → List Char
  | [] => []
  | [a] => encodeChunk [a]
  | [a, b] => encodeChunk [a, b]
  | a :: b :: c :: rest => encodeChunk [a, b, c] ++ b64encodeList rest

/-- Reassemble bytes from the six-bit values of one group (length 2 to 4). -/
def decodeGroup : List Nat → List Nat
  | [a, b] => [a * 4 + b / 16]
  | [a, b, c] => [a * 4 + b / 16, b % 16 * 16 + c / 4]
  | [a, b, c, d] => [a * 4 + b / 16, b % 16 * 16 + c / 4, c % 4 * 64 + d]
  | _ => []

/-- Decode a filtered base64 character stream four characters at a time;
`=` padding is accepted in the final group only. -/
def b64decodeGroups : List Char → Option (List Nat)
  | [] => some []
  | a :: b :: c :: d :: rest =>
    if d = '=' then
      if rest = [] then
        if c = '=' then
          match b64Index a, b64Index b with
          | some x, some y => some (decodeGroup [x, y])
          | _, _ => none
        else
          match b64Index a, b64Index b, b64Index c with
          | some x, some y, some z => some (decodeGroup [x, y, z])
          | _, _, _ => none
      else none
    else
      match b64Index a, b64Index b, b64Index c, b64Index d with
      | some x, some y, some z, some w =>
        match b64decodeGroups rest with
        | some tail => some (decodeGroup [x, y, z, w] ++ tail)
        | none => none
      | _, _, _, _ => none
  | _ => none

/-- `base64.b64decode` on a Python `str`: ASCII check, discard characters
outside the alphabet, then group-wise decode.  `none` models the raised
`binascii.Error` / `ValueError`. -/
def b64decode (s : Str) : Option (List Nat) :=
  if s.all (fun c => c.toNat < 128) then b64decodeGroups (s.filter isB64OrPad)
  else none

/-! ## Base64url, from the spec's words

The spec's diagram-renderer contract says the remote-delegate strategy
"base64url-encodes the markup".  The definitions below follow those words (the
URL-safe alphabet replaces `+` with `-` and `/` with `_`); they exist only to
be compared with `b64encodeList`, which is what `media.py` actually calls. -/

/-- The URL-safe base64 alphabet, from the spec's words. -/
def b64UrlAlphabet : List Char :=
  ['A', 'B', 'C', 'D', 'E', 'F', 'G', 'H', 'I', 'J', 'K', 'L', 'M',
   'N', 'O', 'P', 'Q', 'R', 'S', 'T', 'U', 'V', 'W', 'X', 'Y', 'Z',
   'a', 'b', 'c', 'd', 'e', 'f', 'g', 'h', 'i', 'j', 'k', 'l', 'm',
   'n', 'o', 'p', 'q', 'r', 's', 't', 'u', 'v', 'w', 'x', 'y', 'z',
   '0', '1', '2', '3', '4', '5', '6', '7', '8', '9', '-', '_']

/-- URL-safe character for a six-bit value, from the spec's words. -/
def b64UrlChar (n : Nat) : Char := b64UrlAlphabet.getD n 'A'

/-- Encode one final chunk with the URL-safe alphabet, from the spec's words. -/
def encodeUrlChunk : List Nat → List Char
  | [a, b, c] => [b64UrlChar (a / 4), b64UrlChar (a % 4 * 16 + b / 16),
                  b64UrlChar (b % 16 * 4 + c / 64), b64UrlChar (c % 64)]
  | [a, b] => [b64UrlChar (a / 4), b64UrlChar (a % 4 * 16 + b / 16),
               b64UrlChar (b % 16 * 4), '=']
  | [a] => [b64UrlChar (a / 4), b64UrlChar (a % 4 * 16), '=', '=']
  | _ => []

/-- Modelled from the spec: "base64url-encode the markup" — the URL-safe
base64 encoding the spec prescribes for the remote diagram delegate. -/
def specB64UrlEncode : List Nat → List Char
  | [] => []
  | [a] => encodeUrlChunk [a]
  | [a, b] => encodeUrlChunk [a, b]
  | a :: b :: c :: rest => encodeUrlChunk [a, b, c] ++ specB64UrlEncode rest

/-! ## The data-URL header strip of `upload.py`

`upload.py` line 168-169: if the payload starts with `data:`, replace it with
`split(',')[1]` — the text between the first and the second comma.  A missing
comma raises `IndexError` (modelled by `none`), which the surrounding
`except` turns into the 400 response. -/

/-- Python `str.split(',')`. -/
def splitOnComma : Str → List Str
  | [] => [[]]
  | c :: rest =>
    match splitOnComma rest with
    | [] => [[c]]
    | g :: gs => if c = ',' then [] :: g :: gs else (c :: g) :: gs

/-- The data-URL strip of `upload.py`:
`if s.startswith('data:'): s = s.split(',')[1]`. -/
def stripDataUrlHeader (s : Str) : Option Str :=
  if ("data:".data).isPrefixOf s then (splitOnComma s).get? 1 else some s

/-- Payload decoding of the standalone `/upload/image` endpoint: strip a
data-URL header when present, then `base64.b64decode`. -/
def uploadPyDecodePayload (s : Str) : Option (List Nat) :=
  (stripDataUrlHeader s).bind b64decode

/-- Payload decoding of the media-router `/upload/image` endpoint:
`base64.b64decode` directly, with no data-URL handling. -/
def mediaDecodePayload (s : Str) : Option (List Nat) := b64decode s

/-! ## Object key naming -/

/-- `file_name.lower().endswith('.png')` guarded append of `'.png'`, used by
both render endpoints of `upload.py`. -/
def ensurePngExtension (fn : Str) : Str :=
  if (".png".data).isSuffixOf (fn.map Char.toLower) then fn
  else fn ++ ".png".data

/-- `upload.py` line 162: `f"images/{user_id}/{timestamp}_{unique_id}_{file_name}"`. -/
def imageObjectKey (user_id ts uid fn : Str) : Str :=
  "images/".data ++ user_id ++ "/".data ++ ts ++ "_".data ++ uid ++ "_".data ++ fn

/-- `upload.py` line 239: `f"podcasts/{user_id}/{timestamp}_{unique_id}_{file_name}"`. -/
def podcastObjectKey (user_id ts uid fn : Str) : Str :=
  "podcasts/".data ++ user_id ++ "/".data ++ ts ++ "_".data ++ uid ++ "_".data ++ fn

/-- `upload.py` line 286: diagram key over the `.png`-suffixed filename. -/
def diagramObjectKey (user_id ts uid fn : Str) : Str :=
  "diagrams/".data ++ user_id ++ "/".data ++ ts ++ "_".data ++ uid ++ "_".data
    ++ ensurePngExtension fn

/-- `upload.py` line 321: code key over the `.png`-suffixed filename. -/
def codeObjectKey (user_id ts uid fn : Str) : Str :=
  "code/".data ++ user_id ++ "/".data ++ ts ++ "_".data ++ uid ++ "_".data
    ++ ensurePngExtension fn

/-- `upload.py` line 359: `f"{file_type}/{timestamp}_{unique_id}_{file.filename}"`. -/
def genericObjectKey (file_type ts uid fn : Str) : Str :=
  file_type ++ "/".data ++ ts ++ "_".data ++ uid ++ "_".data ++ fn

/-- `media.py` line 115 / 130: `f"images/{unique_id}/{file_name}"`. -/
def mediaImageObjectKey (uid fn : Str) : Str :=
  "images/".data ++ uid ++ "/".data ++ fn

/-- `media.py` line 96: `f"{file_type}/{unique_id}/{file.filename}"`. -/
def mediaGenericObjectKey (file_type uid fn : Str) : Str :=
  file_type ++ "/".data ++ uid ++ "/".data ++ fn

/-- Python's `a or b` for an optional string: `None` and `""` are both falsy
and fall through to the default. -/
def orDefault (c : Option Str) (d : Str) : Str :=
  match c with
  | none => d
  | some s => if s = [] then d else s

/-- `media.py` line 157: `request.file_name or f"{timestamp}_{unique_id}.png"`
— a missing or empty `file_name` falls back to the generated name; a
non-empty one is used as given. -/
def mediaMermaidFileName (ts uid : Str) (fn : Option Str) : Str :=
  orDefault fn (ts ++ "_".data ++ uid ++ ".png".data)

/-- `media.py` line 158: `f"generated/mermaid/{unique_id}/{file_name}"`. -/
def mediaMermaidObjectKey (uid fn : Str) : Str :=
  "generated/mermaid/".data ++ uid ++ "/".data ++ fn

/-- Modelled from the spec: "Object key layout on the store:
`{category}/{owner-or-absent}/{timestamp}_{unique-id}_{filename}`" — the key
either contains an owner segment or goes straight from the category to the
final underscore-joined segment. -/
def specKeyLayout (key category : Str) : Prop :=
  (∃ owner ts uid fn,
      key = category ++ "/".data ++ owner ++ "/".data
              ++ ts ++ "_".data ++ uid ++ "_".data ++ fn) ∨
  (∃ ts uid fn,
      key = category ++ "/".data ++ ts ++ "_".data ++ uid ++ "_".data ++ fn)

/-! ## Store client -/

/-- The virtual-hosted-style public URL both files build:
`f"https://{S3_BUCKET}.s3.{AWS_REGION}.amazonaws.com/{object_key}"`. -/
def publicUrl (bucket region key : Str) : Str :=
  "https://".data ++ bucket ++ ".s3.".data ++ region
    ++ ".amazonaws.com/".data ++ key

/-- `upload.py` `upload_to_s3_bucket`: `upload_fileobj`, a failure becomes
`HTTPException(500, "S3 upload failed: ...")`, success returns the public URL. -/
def upload_to_s3_bucket (bucket region : Str) (put : PutFn)
    (data : List Nat) (object_key content_type : Str) : Except HTTPError Str :=
  match put object_key data (some content_type) with
  | .error e => .error ⟨500, "S3 upload failed: ".data ++ e⟩
  | .ok _ => .ok (publicUrl bucket region object_key)

/-- `media.py` `upload_to_s3_bucket`: `put_object`, a failure is re-raised
unchanged (`raise e`), success returns the public URL. -/
def media_upload_to_s3_bucket (bucket region : Str) (put : PutFn)
    (data : List Nat) (object_key : Str) (content_type : Option Str) :
    Except Str Str :=
  match put object_key data content_type with
  | .error e => .error e
  | .ok _ => .ok (publicUrl bucket region object_key)

/-! ## Requests and responses -/

/-- `upload.py` `ImageUploadRequest` (the `file_base64` field is optional). -/
structure ImageUploadRequest where
  file_base64 : Option Str
  file_name : Str
  user_id : Str
  content_type : Str

/-- `upload.py` `AudioUploadRequest`. -/
structure AudioUploadRequest where
  source_url : Str
  file_name : Str
  user_id : Str
  content_type : Str

/-- `upload.py` `MermaidRenderRequest`. -/
structure MermaidRenderRequest where
  mermaid_code : Str
  file_name : Str
  user_id : Str

/-- `upload.py` `CodeRenderRequest`. -/
structure CodeRenderRequest where
  code : Str
  language : Str
  style : Str
  file_name : Str
  user_id : Str

/-- `upload.py` `UploadResponse`. -/
structure UploadResponse where
  s3_url : Str
  file_path : Str
  message : Str
deriving Repr, DecidableEq

/-- The dict returned by the generic `/upload/` endpoints. -/
structure GenericUploadResponse where
  s3_key : Str
  public_url : Str
  message : Str
deriving Repr, DecidableEq

/-- `media.py` `UploadResponse`. -/
structure MediaUploadResponse where
  success : Bool
  uploaded_url : Str
  message : Str
deriving Repr, DecidableEq

/-- `media.py` `ImageUploadRequest` (every field required). -/
structure MediaImageUploadRequest where
  file_name : Str
  file_base64 : Str
  content_type : Str

/-- `media.py` `MermaidRenderRequest` (`file_name` optional). -/
structure MediaMermaidRenderRequest where
  mermaid_code : Str
  style : Str
  file_name : Option Str

/-- Placeholder for the text of a dynamically raised exception whose exact
message the embedding does not reconstruct (`str(e)` interpolations). -/
def exceptionText (tag : Str) : Str := "<".data ++ tag ++ ">".data

/-! ## Standalone endpoints (`upload.py`) -/

/-- `upload.py` `/upload/image`: key from `imageObjectKey`, a missing or empty
`file_base64` is a 400, a failed strip/decode is a 400, then the store write,
whose `HTTPException` is re-raised unchanged. -/
def upload_image (bucket region : Str) (put : PutFn) (ts uid : Str)
    (req : ImageUploadRequest) : Except HTTPError UploadResponse :=
  let object_key := imageObjectKey req.user_id ts uid req.file_name
  match req.file_base64 with
  | none => .error ⟨400, "file_base64 is required for image upload".data⟩
  | some b64 =>
    if b64 = [] then
      .error ⟨400, "file_base64 is required for image upload".data⟩
    else
      match uploadPyDecodePayload b64 with
      | none => .error ⟨400, "Invalid base64 image data: ".data
                              ++ exceptionText "decode error".data⟩
      | some data =>
        match upload_to_s3_bucket bucket region put data object_key
                req.content_type with
        | .error e => .error e
        | .ok url => .ok ⟨url, object_key, "Image upload successful".data⟩

/-- `upload.py` `/upload/image/file`: a missing, empty or non-`image/`
content type is rejected with a 400 before the multipart body is read and
before any store call; otherwise the bytes are stored under `imageObjectKey`. -/
def upload_image_file (bucket region : Str) (put : PutFn) (ts uid : Str)
    (user_id : Str) (file_content_type : Option Str) (file_name : Str)
    (content : List Nat) : Except HTTPError UploadResponse :=
  match file_content_type with
  | none => .error ⟨400, "File must be an image".data⟩
  | some ct =>
    if ct = [] then .error ⟨400, "File must be an image".data⟩
    else if ("image/".data).isPrefixOf ct then
      let object_key := imageObjectKey user_id ts uid file_name
      match upload_to_s3_bucket bucket region put content object_key ct with
      | .error e => .error e
      | .ok url => .ok ⟨url, object_key, "Image file upload successful".data⟩
    else .error ⟨400, "File must be an image".data⟩

/-- The response of an HTTP GET as `httpx` reports it: status code, the
`content-type` header when present, and the body bytes. -/
structure FetchResponse where
  status : Nat
  contentType : Option Str
  content : List Nat

/-- The warning `upload.py` prints when the downloaded content type does not
start with `audio/`. -/
def audioContentTypeWarning (ct : Option Str) : Str :=
  "Warning: Source URL may not be audio content. Content-Type: ".data
    ++ ct.getD "None".data

/-- `upload.py` `/upload/audio`: download the source URL (transport failure or
`raise_for_status` on a non-2xx both surface as the 400 download error), warn
— without blocking — when the content type is not `audio/`, then store the
returned bytes.  The second component collects the printed warnings. -/
def upload_audio (bucket region : Str)
    (fetch : Str → Except Str FetchResponse) (put : PutFn) (ts uid : Str)
    (req : AudioUploadRequest) :
    Except HTTPError UploadResponse × List Str :=
  let object_key := podcastObjectKey req.user_id ts uid req.file_name
  match fetch req.source_url with
  | .error msg =>
    (.error ⟨400, "Failed to download audio from source URL: ".data ++ msg⟩, [])
  | .ok resp =>
    if resp.status < 200 ∨ 300 ≤ resp.status then
      (.error ⟨400, "Failed to download audio from source URL: ".data
                      ++ exceptionText "status error".data⟩, [])
    else
      let warnings :=
        if ("audio/".data).isPrefixOf ((resp.contentType).getD []) then []
        else [audioContentTypeWarning resp.contentType]
      match upload_to_s3_bucket bucket region put resp.content object_key
              req.content_type with
      | .error e => (.error e, warnings)
      | .ok url => (.ok ⟨url, object_key, "Audio upload successful".data⟩, warnings)

/-- `upload.py` `/render-and-upload/mermaid`: key from `diagramObjectKey`
(which `.png`-suffixes the filename), render via the headless browser
collaborator, store as `image/png`. -/
def render_and_upload_mermaid (bucket region : Str)
    (render : Str → Except HTTPError (List Nat)) (put : PutFn) (ts uid : Str)
    (req : MermaidRenderRequest) : Except HTTPError UploadResponse :=
  let object_key := diagramObjectKey req.user_id ts uid req.file_name
  match render req.mermaid_code with
  | .error e => .error e
  | .ok bytes =>
    match upload_to_s3_bucket bucket region put bytes object_key
            "image/png".data with
    | .error e => .error e
    | .ok url =>
      .ok ⟨url, object_key, "Mermaid diagram rendered and uploaded successfully".data⟩

/-- `upload.py` `/render-and-upload/code`: key from `codeObjectKey` (which
`.png`-suffixes the filename), render via the Pygments/browser collaborator,
store as `image/png`. -/
def render_and_upload_code (bucket region : Str)
    (render : Str → Str → Str → Except HTTPError (List Nat)) (put : PutFn)
    (ts uid : Str) (req : CodeRenderRequest) : Except HTTPError UploadResponse :=
  let object_key := codeObjectKey req.user_id ts uid req.file_name
  match render req.code req.language req.style with
  | .error e => .error e
  | .ok bytes =>
    match upload_to_s3_bucket bucket region put bytes object_key
            "image/png".data with
    | .error e => .error e
    | .ok url =>
      .ok ⟨url, object_key, "Source code rendered and uploaded successfully".data⟩

set_option linter.unusedVariables false in
/-- `upload.py` `/upload/`: the legacy generic endpoint.  It accepts a
`user_email` form field that nothing in the body reads; the key is
`genericObjectKey`, and any failure — the store's `HTTPException` included —
is wrapped into a 500 "Generic upload failed". -/
def upload_generic_file (bucket region : Str) (put : PutFn) (ts uid : Str)
    (user_email file_type : Str) (file_name : Str)
    (file_content_type : Option Str) (content : List Nat) :
    Except HTTPError GenericUploadResponse :=
  let object_key := genericObjectKey file_type ts uid file_name
  match upload_to_s3_bucket bucket region put content object_key
          (orDefault file_content_type "application/octet-stream".data) with
  | .error e => .error ⟨500, "Generic upload failed: ".data ++ e.detail⟩
  | .ok url => .ok ⟨object_key, url, "Upload successful and file is public".data⟩

/-! ## Media-router endpoints (`app/routers/media.py`, `app/main.py`) -/

/-- `media.py` `/upload/image`: key from `mediaImageObjectKey` (no timestamp
segment), no data-URL handling; every failure inside the handler — the
explicit 400 for a missing payload included — is caught by
`except Exception` and re-raised as a 500. -/
def media_upload_image (bucket region : Str) (put : PutFn) (uid : Str)
    (req : MediaImageUploadRequest) : Except HTTPError MediaUploadResponse :=
  let object_key := mediaImageObjectKey uid req.file_name
  if req.file_base64 = [] then
    .error ⟨500, "400: No image data provided. Use file_base64 field.".data⟩
  else
    match mediaDecodePayload req.file_base64 with
    | none => .error ⟨500, exceptionText "binascii.Error".data⟩
    | some data =>
      match media_upload_to_s3_bucket bucket region put data object_key
              (some req.content_type) with
      | .error e => .error ⟨500, e⟩
      | .ok url => .ok ⟨true, url, "Upload successful".data⟩

/-- `media.py` `/upload/image/file`: no content-type validation at all — the
multipart body is read and stored whatever the declared type; failures become
a 500. -/
def media_upload_image_file (bucket region : Str) (put : PutFn) (uid : Str)
    (file_content_type : Option Str) (file_name : Str) (content : List Nat) :
    Except HTTPError MediaUploadResponse :=
  let object_key := mediaImageObjectKey uid file_name
  match media_upload_to_s3_bucket bucket region put content object_key
          file_content_type with
  | .error e => .error ⟨500, e⟩
  | .ok url => .ok ⟨true, url, "Upload successful".data⟩

/-- `media.py` `/upload/`: no try/except — a store failure propagates as an
unhandled exception (FastAPI's 500); the key is `mediaGenericObjectKey`. -/
def media_upload_generic_file (bucket region : Str) (put : PutFn) (uid : Str)
    (file_type file_name : Str) (file_content_type : Option Str)
    (content : List Nat) : Except HTTPError GenericUploadResponse :=
  let object_key := mediaGenericObjectKey file_type uid file_name
  match put object_key content file_content_type with
  | .error e => .error ⟨500, e⟩
  | .ok _ =>
    .ok ⟨object_key, publicUrl bucket region object_key,
         "Upload successful and file is public".data⟩

/-- The failure shapes of `media.py` `render_mermaid_diagram`: the
`HTTPStatusError` branch keeps the upstream status code and body text, any
other exception keeps only its text. -/
inductive MermaidRenderError where
  | renderFailed (status : Nat) (body : List Nat)
  | unexpected (msg : Str)
deriving Repr, DecidableEq

/-- The `timeout=30.0` passed to `client.get` in
`media.py` `render_mermaid_diagram`, in seconds. -/
def mermaidTimeoutSeconds : Nat := 30

/-- The mermaid.ink URL `media.py` builds:
`f"https://mermaid.ink/img/{base64_string}?theme={theme}"`. -/
def mermaidRequestUrl (payload theme : Str) : Str :=
  "https://mermaid.ink/img/".data ++ payload ++ "?theme=".data ++ theme

/-- The response of the mermaid.ink GET: status code and body. -/
structure HttpResponse where
  status : Nat
  content : List Nat

/-- `media.py` `render_mermaid_diagram`: ASCII-encode the markup (a non-ASCII
character raises, landing in the generic branch), standard-base64 encode it,
GET the mermaid.ink URL, and let `raise_for_status` turn every non-2xx
response into the render failure carrying the upstream status and body. -/
def render_mermaid_diagram (fetch : Str → Except Str HttpResponse)
    (code theme : Str) : Except MermaidRenderError (List Nat) :=
  if code.all (fun c => c.toNat < 128) then
    let base64_string := b64encodeList (code.map Char.toNat)
    let url := mermaidRequestUrl base64_string theme
    match fetch url with
    | .error msg => .error (.unexpected msg)
    | .ok resp =>
      if 200 ≤ resp.status ∧ resp.status < 300 then .ok resp.content
      else .error (.renderFailed resp.status resp.content)
  else .error (.unexpected "ascii codec cannot encode".data)

/-- `media.py` `/render-and-upload/mermaid`: render via mermaid.ink, then the
key uses the supplied filename verbatim (`mediaMermaidFileName`), falling back
to a generated `.png` name only when none was supplied. -/
def handle_mermaid_render (bucket region : Str)
    (fetch : Str → Except Str HttpResponse) (put : PutFn) (ts uid : Str)
    (req : MediaMermaidRenderRequest) : Except HTTPError MediaUploadResponse :=
  match render_mermaid_diagram fetch req.mermaid_code req.style with
  | .error e =>
    .error ⟨500, "Failed to render and upload Mermaid diagram: ".data
                  ++ (match e with
                      | .renderFailed _ _ => exceptionText "status error".data
                      | .unexpected msg => msg)⟩
  | .ok bytes =>
    let file_name := mediaMermaidFileName ts uid req.file_name
    let object_key := mediaMermaidObjectKey uid file_name
    match media_upload_to_s3_bucket bucket region put bytes object_key
            (some "image/png".data) with
    | .error e => .error ⟨500, "Failed to render and upload Mermaid diagram: ".data ++ e⟩
    | .ok url =>
      .ok ⟨true, url, "Mermaid diagram rendered and uploaded successfully".data⟩

/-! ## Health checks -/

/-- The structured health payload: a status string plus an optional detail. -/
structure HealthPayload where
  status : Str
  detail : Option Str
deriving Repr, DecidableEq

/-- `upload.py` `/health`: `head_bucket` succeeds → a plain dict (HTTP 200)
with `status: healthy`; any exception → a `JSONResponse(status_code=503)`
carrying `status: unhealthy` and the error text.  Total: no path raises. -/
def health_check (probe : Except Str Unit) : Nat × HealthPayload :=
  match probe with
  | .ok _ => (200, ⟨"healthy".data, none⟩)
  | .error e => (503, ⟨"unhealthy".data, some e⟩)

/-- `app/main.py` `/health`: `list_buckets` succeeds → `status: healthy`; any
exception → `status: unhealthy` with the detail — both returned as plain
dicts, hence HTTP 200.  Total: no path raises. -/
def app_health_check (probe : Except Str Unit) : Nat × HealthPayload :=
  match probe with
  | .ok _ => (200, ⟨"healthy".data, none⟩)
  | .error e => (200, ⟨"unhealthy".data, some e⟩)

/-- Facts about every character of the base64 alphabet, by evaluation. -/
theorem b64Alphabet_facts :
    ∀ c ∈ b64Alphabet, isB64OrPad c = true ∧ c ≠ '=' ∧ c.toNat < 128 := by decide

theorem b64Char_cases (n : Nat) : b64Char n ∈ b64Alphabet := by
  unfold b64Char List.getD
  cases h : b64Alphabet.get? n with
  | none => simp [Option.getD]; decide
  | some c => simp [Option.getD]; exact List.get?_mem h

theorem isB64OrPad_b64Char (n : Nat) : isB64OrPad (b64Char n) = true :=
  (b64Alphabet_facts _ (b64Char_cases n)).1

theorem b64Char_ne_pad (n : Nat) : b64Char n ≠ '=' :=
  (b64Alphabet_facts _ (b64Char_cases n)).2.1

theorem b64Char_ascii (n : Nat) : (b64Char n).toNat < 128 :=
  (b64Alphabet_facts _ (b64Char_cases n)).2.2

theorem b64Index_b64Char {n : Nat} (h : n < 64) : b64Index (b64Char n) = some n := by
  have key : ∀ m : Fin 64, b64Index (b64Char m.val) = some m.val := by decide
  exact key ⟨n, h⟩

/-- Induction in the three-byte steps of the base64 encoder. -/
theorem threeChunkInduction {motive : List Nat → Prop} (h0 : motive [])
    (h1 : ∀ a, motive [a]) (h2 : ∀ a b, motive [a, b])
    (h3 : ∀ a b c rest, motive rest → motive (a :: b :: c :: rest)) :
    ∀ l, motive l
  | [] => h0
  | [a] => h1 a
  | [a, b] => h2 a b
  | a :: b :: c :: rest => h3 a b c rest (threeChunkInduction h0 h1 h2 h3 rest)

/-- `isB64OrPad` holds for the pad character. -/
theorem isB64OrPad_pad : isB64OrPad '=' = true := by decide

/-- Every character the encoder emits passes the decoder's pre-filter. -/
theorem b64encode_all_b64 (l : List Nat) :
    (b64encodeList l).all isB64OrPad = true := by
  induction l using threeChunkInduction with
  | h0 => rfl
  | h1 a =>
    simp [b64encodeList, encodeChunk, List.all_cons, isB64OrPad_b64Char,
          isB64OrPad_pad]
  | h2 a b =>
    simp [b64encodeList, encodeChunk, List.all_cons, isB64OrPad_b64Char,
          isB64OrPad_pad]
  | h3 a b c rest ih =>
    simp [b64encodeList, encodeChunk, List.all_cons, List.all_append,
          isB64OrPad_b64Char, isB64OrPad_pad, ih]

/-- Membership form of `b64encode_all_b64`. -/
theorem b64encode_mem_b64 {l : List Nat} {c : Char}
    (hc : c ∈ b64encodeList l) : isB64OrPad c = true :=
  List.all_eq_true.mp (b64encode_all_b64 l) c hc

/-- The decoder's pre-filter keeps an encoder output unchanged. -/
theorem filter_b64encode (l : List Nat) :
    (b64encodeList l).filter isB64OrPad = b64encodeList l :=
  List.filter_eq_self.mpr (fun _ hc => b64encode_mem_b64 hc)

/-- A hit in `indexInAlphabet` certifies membership. -/
theorem mem_of_indexInAlphabet {c : Char} :
    ∀ (lst : List Char) (i m : Nat), indexInAlphabet c lst i = some m → c ∈ lst := by
  intro lst
  induction lst with
  | nil => intro i m h; simp [indexInAlphabet] at h
  | cons a rest ih =>
    intro i m h
    unfold indexInAlphabet at h
    by_cases hac : a = c
    · exact hac ▸ List.mem_cons_self a rest
    · simp [hac] at h
      exact List.mem_cons_of_mem _ (ih _ _ h)

/-- Characters surviving the pre-filter are ASCII. -/
theorem isB64OrPad_ascii {c : Char} (h : isB64OrPad c = true) : c.toNat < 128 := by
  unfold isB64OrPad at h
  rcases Bool.or_eq_true _ _ |>.mp h with h' | h'
  · rcases Option.isSome_iff_exists.mp h' with ⟨m, hm⟩
    exact (b64Alphabet_facts _ (mem_of_indexInAlphabet _ _ _ hm)).2.2
  · have : c = '=' := by simpa using h'
    subst this; decide

/-- Encoder output is ASCII. -/
theorem b64encode_ascii (l : List Nat) :
    (b64encodeList l).all (fun c => c.toNat < 128) = true := by
  apply List.all_eq_true.mpr
  intro c hc
  simpa using isB64OrPad_ascii (b64encode_mem_b64 hc)

/-- Decoding undoes the encoding of a full three-byte chunk. -/
theorem decodeGroup_full (a b c : Nat) (_ha : a < 256) (hb : b < 256) (hc : c < 256) :
    decodeGroup [a / 4, a % 4 * 16 + b / 16, b % 16 * 4 + c / 64, c % 64]
      = [a, b, c] := by
  simp [decodeGroup]
  refine ⟨?_, ?_, ?_⟩ <;> omega

/-- Decoding undoes the encoding of a final one-byte chunk. -/
theorem decodeGroup_one (a : Nat) (_ha : a < 256) :
    decodeGroup [a / 4, a % 4 * 16] = [a] := by
  simp [decodeGroup]; omega

/-- Decoding undoes the encoding of a final two-byte chunk. -/
theorem decodeGroup_two (a b : Nat) (_ha : a < 256) (hb : b < 256) :
    decodeGroup [a / 4, a % 4 * 16 + b / 16, b % 16 * 4] = [a, b] := by
  simp [decodeGroup]
  constructor <;> omega

/-- Group-wise decoding inverts the encoder on byte values. -/
theorem b64decodeGroups_encode :
    ∀ l : List Nat, (∀ x ∈ l, x < 256) →
      b64decodeGroups (b64encodeList l) = some l := by
  intro l
  induction l using threeChunkInduction with
  | h0 => intro _; rfl
  | h1 a =>
    intro h
    have ha : a < 256 := h a (by simp)
    have h1 : a / 4 < 64 := by omega
    have h2 : a % 4 * 16 < 64 := by omega
    simp only [b64encodeList, encodeChunk, b64decodeGroups]
    rw [b64Index_b64Char h1, b64Index_b64Char h2]
    simp [decodeGroup_one a ha]
  | h2 a b =>
    intro h
    have ha : a < 256 := h a (by simp)
    have hb : b < 256 := h b (by simp)
    have h1 : a / 4 < 64 := by omega
    have h2 : a % 4 * 16 + b / 16 < 64 := by omega
    have h3 : b % 16 * 4 < 64 := by omega
    simp only [b64encodeList, encodeChunk, b64decodeGroups]
    rw [if_neg (b64Char_ne_pad _), b64Index_b64Char h1, b64Index_b64Char h2,
        b64Index_b64Char h3]
    simp [decodeGroup_two a b ha hb]
  | h3 a b c rest ih =>
    intro h
    have ha : a < 256 := h a (by simp)
    have hb : b < 256 := h b (by simp)
    have hc : c < 256 := h c (by simp)
    have hrest : ∀ x ∈ rest, x < 256 := fun x hx => h x (by simp [hx])
    have h1 : a / 4 < 64 := by omega
    have h2 : a % 4 * 16 + b / 16 < 64 := by omega
    have h3 : b % 16 * 4 + c / 64 < 64 := by omega
    have h4 : c % 64 < 64 := by omega
    simp only [b64encodeList, encodeChunk, List.cons_append, List.nil_append,
               b64decodeGroups]
    rw [if_neg (b64Char_ne_pad _), b64Index_b64Char h1, b64Index_b64Char h2,
        b64Index_b64Char h3, b64Index_b64Char h4]
    simp [ih hrest, decodeGroup_full a b c ha hb hc]

/-- Round trip: `base64.b64decode` inverts `base64.b64encode` on byte lists. -/
theorem b64decode_b64encode (l : List Nat) (h : ∀ x ∈ l, x < 256) :
    b64decode (b64encodeList l) = some l := by
  unfold b64decode
  rw [if_pos (b64encode_ascii l), filter_b64encode, b64decodeGroups_encode l h]

/-- `split(',')` of a comma-free string is the single-element list. -/
theorem splitOnComma_no_comma (p : Str) (h : ',' ∉ p) : splitOnComma p = [p] := by
  induction p with
  | nil => rfl
  | cons c rest ih =>
    have hc : c ≠ ',' := fun hc => h (hc ▸ List.mem_cons_self c rest)
    have hr : ',' ∉ rest := fun hr => h (List.mem_cons_of_mem c hr)
    simp [splitOnComma, ih hr, hc]

/-- `split(',')` around a single comma separating two comma-free parts. -/
theorem splitOnComma_single (q p : Str) (hq : ',' ∉ q) (hp : ',' ∉ p) :
    splitOnComma (q ++ ',' :: p) = [q, p] := by
  induction q with
  | nil => simp [splitOnComma, splitOnComma_no_comma p hp]
  | cons c rest ih =>
    have hc : c ≠ ',' := fun hc => hq (hc ▸ List.mem_cons_self c rest)
    have hr : ',' ∉ rest := fun hr => hq (List.mem_cons_of_mem c hr)
    simp [splitOnComma, ih hr, hc]

/-- Characters failing the pre-filter never appear in an encoder output. -/
theorem not_mem_b64encode {ch : Char} (hch : isB64OrPad ch = false)
    (l : List Nat) : ch ∉ b64encodeList l := fun hmem => by
  rw [b64encode_mem_b64 hmem] at hch
  exact absurd hch (by simp)

/-- An encoder output never starts with the `data:` marker (its fifth
character would have to be a colon). -/
theorem b64encode_no_data_marker (l : List Nat) :
    ("data:".data).isPrefixOf (b64encodeList l) = false := by
  by_contra h
  have h' : ("data:".data) <+: b64encodeList l :=
    List.isPrefixOf_iff_prefix.mp (Bool.of_not_eq_false h)
  rcases h' with ⟨t, ht⟩
  have hcolon : ':' ∈ b64encodeList l := by
    rw [show "data:".data = ['d', 'a', 't', 'a', ':'] from rfl] at ht
    rw [← ht]; simp
  exact not_mem_b64encode (by decide) l hcolon

/-- The strip is the identity on encoder outputs (there is no marker to
strip): the idempotence direction of the claim. -/
theorem stripDataUrlHeader_b64encode (l : List Nat) :
    stripDataUrlHeader (b64encodeList l) = some (b64encodeList l) := by
  unfold stripDataUrlHeader
  rw [b64encode_no_data_marker]
  simp

/-- Stripping a concrete `data:image/png;base64,` header recovers the bare
payload. -/
theorem stripDataUrlHeader_prefixed (l : List Nat) :
    stripDataUrlHeader ("data:image/png;base64,".data ++ b64encodeList l)
      = some (b64encodeList l) := by
  have hsplit : "data:image/png;base64,".data ++ b64encodeList l
      = "data:image/png;base64".data ++ ',' :: b64encodeList l := by
    rw [show "data:image/png;base64,".data
          = "data:image/png;base64".data ++ [','] from rfl]
    simp
  have hq : ',' ∉ "data:image/png;base64".data := by decide
  have hp : ',' ∉ b64encodeList l := not_mem_b64encode (by decide) l
  have hpre : ("data:".data).isPrefixOf
      ("data:image/png;base64,".data ++ b64encodeList l) = true := by
    apply List.isPrefixOf_iff_prefix.mpr
    exact List.IsPrefix.trans (by decide) (List.prefix_append _ _)
  unfold stripDataUrlHeader
  rw [hpre]
  simp only [if_true]
  rw [hsplit, splitOnComma_single _ _ hq hp]
  rfl

/-- A filename already carrying a (case-insensitive) `.png` suffix is kept. -/
theorem ensurePng_already (fn : Str)
    (h : (".png".data).isSuffixOf (fn.map Char.toLower) = true) :
    ensurePngExtension fn = fn := by
  unfold ensurePngExtension
  rw [h]
  rfl

/-- A filename without the `.png` suffix gets it appended. -/
theorem ensurePng_appends (fn : Str)
    (h : (".png".data).isSuffixOf (fn.map Char.toLower) = false) :
    ensurePngExtension fn = fn ++ ".png".data := by
  unfold ensurePngExtension
  rw [h]
  rfl

/-- After the guard, the filename always ends with `.png` (case-insensitively). -/
theorem ensurePng_endsWith (fn : Str) :
    (".png".data).isSuffixOf ((ensurePngExtension fn).map Char.toLower) = true := by
  unfold ensurePngExtension
  cases h : (".png".data).isSuffixOf (fn.map Char.toLower) with
  | true => simpa using h
  | false =>
    simp only [Bool.false_eq_true, if_false]
    rw [List.map_append]
    rw [show (".png".data).map Char.toLower = ".png".data from rfl]
    exact List.isSuffixOf_iff_suffix.mpr (List.suffix_append _ _)

/-- C1, amended: in the standalone service (`upload.py`) every object key
follows the `{category}/{owner-or-absent}/{timestamp}_{unique-id}_{filename}`
layout — with the owner segment for the image, audio, diagram and code
endpoints and without it for the generic endpoint; the media router instead
assigns `{category}/{unique-id}/{filename}`, with no timestamp and with the
unique id as its own path segment. -/
theorem C1_object_key_layout (user ts uid fn ft : Str) :
    specKeyLayout (imageObjectKey user ts uid fn) "images".data ∧
    specKeyLayout (podcastObjectKey user ts uid fn) "podcasts".data ∧
    specKeyLayout (diagramObjectKey user ts uid fn) "diagrams".data ∧
    specKeyLayout (codeObjectKey user ts uid fn) "code".data ∧
    specKeyLayout (genericObjectKey ft ts uid fn) ft ∧
    mediaImageObjectKey uid fn
      = "images".data ++ "/".data ++ uid ++ "/".data ++ fn ∧
    mediaGenericObjectKey ft uid fn
      = ft ++ "/".data ++ uid ++ "/".data ++ fn :=
  ⟨Or.inl ⟨user, ts, uid, fn, rfl⟩,
   Or.inl ⟨user, ts, uid, fn, rfl⟩,
   Or.inl ⟨user, ts, uid, ensurePngExtension fn, rfl⟩,
   Or.inl ⟨user, ts, uid, ensurePngExtension fn, rfl⟩,
   Or.inr ⟨ts, uid, fn, rfl⟩,
   rfl, rfl⟩

/-- C1, counterexample: a successful upload through the media router's
`/upload/image` endpoint stores under `images/u/f.png` — the key layout
`images/{unique-id}/{filename}` — and that key does not fit the claimed
`{category}/{owner-or-absent}/{timestamp}_{unique-id}_{filename}` layout:
the final segment of the claimed layout forces at least two underscores,
and `images/u/f.png` has none. -/
theorem C1_media_key_breaks_layout :
    media_upload_image "b".data "r".data (fun _ _ _ => .ok ()) "u".data
        ⟨"f.png".data, "AA==".data, "image/png".data⟩
      = .ok ⟨true, publicUrl "b".data "r".data "images/u/f.png".data,
             "Upload successful".data⟩ ∧
    ¬ specKeyLayout (mediaImageObjectKey "u".data "f.png".data) "images".data := by
  refine ⟨rfl, ?_⟩
  intro h
  have e1 : List.count '_' ("images/u/f.png".data) = 0 := by decide
  have e2 : List.count '_' ("_".data) = 1 := by decide
  have e3 : List.count '_' ("/".data) = 0 := by decide
  have e4 : List.count '_' ("images".data) = 0 := by decide
  have hkey : mediaImageObjectKey "u".data "f.png".data = "images/u/f.png".data := rfl
  rcases h with ⟨o, t, u, f, heq⟩ | ⟨t, u, f, heq⟩ <;>
  · rw [hkey] at heq
    have hc := congrArg (List.count '_') heq
    simp only [List.count_append, e1, e2, e3, e4] at hc
    omega

/-- C2, amended: in the standalone service, decoding inverts base64 encoding
(`decode(base64(bytes)) = bytes`), a leading `data:...;base64,` header is
stripped before decoding, and the strip is the identity on header-free input
(so a payload that was already stripped once decodes to the same bytes); the
media router performs no stripping, so only the bare round trip holds there. -/
theorem C2_base64_roundtrip (bs : List Nat) (h : ∀ x ∈ bs, x < 256) :
    uploadPyDecodePayload (b64encodeList bs) = some bs ∧
    uploadPyDecodePayload ("data:image/png;base64,".data ++ b64encodeList bs)
      = some bs ∧
    stripDataUrlHeader (b64encodeList bs) = some (b64encodeList bs) ∧
    mediaDecodePayload (b64encodeList bs) = some bs := by
  refine ⟨?_, ?_, stripDataUrlHeader_b64encode bs, b64decode_b64encode bs h⟩
  · unfold uploadPyDecodePayload
    rw [stripDataUrlHeader_b64encode]
    simpa using b64decode_b64encode bs h
  · unfold uploadPyDecodePayload
    rw [stripDataUrlHeader_prefixed]
    simpa using b64decode_b64encode bs h

/-- C2 witness: the prefixed round trip evaluated at the bytes `[0, 77, 255]`. -/
theorem C2_base64_roundtrip_witness :
    uploadPyDecodePayload ("data:image/png;base64,".data ++ b64encodeList [0, 77, 255])
      = some [0, 77, 255] :=
  (C2_base64_roundtrip [0, 77, 255] (by decide)).2.1

/-- C2 counterexample: the media router's image-payload decoding does not
strip the `data:...;base64,` header — the prefixed encoding of `[0]` fails to
decode there (the claim requires it to yield `[0]`), while the standalone
decoding recovers `[0]`. -/
theorem C2_media_decode_does_not_strip :
    mediaDecodePayload ("data:image/png;base64,".data ++ b64encodeList [0]) = none ∧
    uploadPyDecodePayload ("data:image/png;base64,".data ++ b64encodeList [0])
      = some [0] := ⟨rfl, rfl⟩

/-- C3, amended: a missing/empty payload or an undecodable base64 payload
terminates the pipeline before any store call — the outcome is the same for
every store client `put`, so `put` is never invoked.  The standalone service
reports the failure as a 400 client error as claimed; the media router's
catch-all converts both failures (its own explicit 400 included) into a 500
server error. -/
theorem C3_validation_short_circuit (bucket region : Str) (put : PutFn)
    (ts uid : Str) :
    (∀ req : ImageUploadRequest,
        req.file_base64 = none ∨ req.file_base64 = some [] →
        upload_image bucket region put ts uid req
          = .error ⟨400, "file_base64 is required for image upload".data⟩) ∧
    (∀ (req : ImageUploadRequest) (b64 : Str),
        req.file_base64 = some b64 → b64 ≠ [] →
        uploadPyDecodePayload b64 = none →
        upload_image bucket region put ts uid req
          = .error ⟨400, "Invalid base64 image data: ".data
                          ++ exceptionText "decode error".data⟩) ∧
    (∀ req : MediaImageUploadRequest,
        req.file_base64 = [] →
        media_upload_image bucket region put uid req
          = .error ⟨500, "400: No image data provided. Use file_base64 field.".data⟩) ∧
    (∀ req : MediaImageUploadRequest,
        req.file_base64 ≠ [] →
        mediaDecodePayload req.file_base64 = none →
        media_upload_image bucket region put uid req
          = .error ⟨500, exceptionText "binascii.Error".data⟩) := by
  refine ⟨?_, ?_, ?_, ?_⟩
  · intro req h
    rcases h with h | h <;> simp [upload_image, h]
  · intro req b64 hreq hne hdec
    simp [upload_image, hreq, hne, hdec]
  · intro req h
    simp [media_upload_image, h]
  · intro req hne hdec
    simp [media_upload_image, hne, hdec]

/-- C3 witness: the standalone endpoint with no payload returns the 400, even
with a store client that would succeed. -/
theorem C3_validation_short_circuit_witness :
    upload_image "b".data "r".data (fun _ _ _ => .ok ()) "t".data "u".data
        ⟨none, "f.png".data, "u1".data, "image/png".data⟩
      = .error ⟨400, "file_base64 is required for image upload".data⟩ :=
  (C3_validation_short_circuit "b".data "r".data (fun _ _ _ => .ok ())
      "t".data "u".data).1 _ (Or.inl rfl)

/-- C3 counterexample: the media router's `/upload/image` with the
undecodable payload `"A"` fails with status 500, not the claimed
400-equivalent (the store is still never reached). -/
theorem C3_media_decode_failure_is_500 :
    media_upload_image "b".data "r".data (fun _ _ _ => .ok ()) "u".data
        ⟨"f.png".data, "A".data, "image/png".data⟩
      = .error ⟨500, exceptionText "binascii.Error".data⟩ ∧ (500 : Nat) ≠ 400 :=
  ⟨rfl, by decide⟩

/-- C4: when the store client's `put` fails, the store wrapper returns the
single terminal 500 `S3 upload failed` error, and none of the upload
endpoints can produce a success response — no URL and no storage key are
ever returned. -/
theorem C4_store_failure_terminal (bucket region : Str) (put : PutFn)
    (msg : Str) (hput : ∀ k d c, put k d c = .error msg) :
    (∀ data object_key content_type,
        upload_to_s3_bucket bucket region put data object_key content_type
          = .error ⟨500, "S3 upload failed: ".data ++ msg⟩) ∧
    (∀ ts uid req resp, upload_image bucket region put ts uid req ≠ .ok resp) ∧
    (∀ uid req resp, media_upload_image bucket region put uid req ≠ .ok resp) ∧
    (∀ ts uid ue ft fn ct content resp,
        upload_generic_file bucket region put ts uid ue ft fn ct content
          ≠ .ok resp) := by
  have hstore : ∀ data object_key content_type,
      upload_to_s3_bucket bucket region put data object_key content_type
        = .error ⟨500, "S3 upload failed: ".data ++ msg⟩ := by
    intro d k c
    unfold upload_to_s3_bucket
    rw [hput]
  refine ⟨hstore, ?_, ?_, ?_⟩
  · intro ts uid req resp hok
    rcases hreq : req.file_base64 with _ | b64
    · simp [upload_image, hreq] at hok
    · by_cases hb : b64 = []
      · simp [upload_image, hreq, hb] at hok
      · cases hdec : uploadPyDecodePayload b64 with
        | none => simp [upload_image, hreq, hb, hdec] at hok
        | some data => simp [upload_image, hreq, hb, hdec, hstore] at hok
  · intro uid req resp hok
    by_cases hb : req.file_base64 = []
    · simp [media_upload_image, hb] at hok
    · cases hdec : mediaDecodePayload req.file_base64 with
      | none => simp [media_upload_image, hb, hdec] at hok
      | some data =>
        simp [media_upload_image, media_upload_to_s3_bucket, hb, hdec, hput] at hok
  · intro ts uid ue ft fn ct content resp hok
    simp [upload_generic_file, hstore] at hok

/-- C4 witness: a concrete always-failing store client produces exactly the
terminal store error. -/
theorem C4_store_failure_terminal_witness :
    upload_to_s3_bucket "b".data "r".data (fun _ _ _ => .error "boom".data)
        [1, 2] "k".data "image/png".data
      = .error ⟨500, "S3 upload failed: ".data ++ "boom".data⟩ :=
  (C4_store_failure_terminal "b".data "r".data
      (fun _ _ _ => .error "boom".data) "boom".data (fun _ _ _ => rfl)).1
    [1, 2] "k".data "image/png".data

/-- C5, amended: the remote-delegate diagram strategy standard-base64
encodes the ASCII markup (not base64url as the spec claims), issues the GET
to `https://mermaid.ink/img/{payload}?theme={theme}` under the 30-second
timeout, returns the body on a 2xx response and maps every non-2xx response
to the render failure carrying the upstream status and body. -/
theorem C5_mermaid_remote_render (fetch : Str → Except Str HttpResponse)
    (code theme : Str) (hascii : code.all (fun c => c.toNat < 128) = true)
    (resp : HttpResponse)
    (hfetch : fetch (mermaidRequestUrl (b64encodeList (code.map Char.toNat)) theme)
                = .ok resp) :
    mermaidTimeoutSeconds = 30 ∧
    ((200 ≤ resp.status ∧ resp.status < 300) →
        render_mermaid_diagram fetch code theme = .ok resp.content) ∧
    (¬(200 ≤ resp.status ∧ resp.status < 300) →
        render_mermaid_diagram fetch code theme
          = .error (.renderFailed resp.status resp.content)) := by
  refine ⟨rfl, ?_, ?_⟩ <;> intro hstatus <;>
    simp [render_mermaid_diagram, hascii, hfetch, hstatus]

/-- C5 witness: a 404 from the rendering endpoint becomes the render failure
carrying status 404 and the upstream body. -/
theorem C5_mermaid_remote_render_witness :
    render_mermaid_diagram (fun _ => .ok ⟨404, [78]⟩) "graph TD".data "dark".data
      = .error (.renderFailed 404 [78]) :=
  (C5_mermaid_remote_render (fun _ => .ok ⟨404, [78]⟩) "graph TD".data
      "dark".data (by decide) ⟨404, [78]⟩ rfl).2.2 (by decide)

/-- C5 counterexample: on the markup `"???"` the code's encoder produces
`Pz8/` (standard base64) where the base64url encoding the claim prescribes
is `Pz8_`; an echoing fetch confirms the URL actually requested carries the
standard-base64 payload. -/
theorem C5_standard_base64_not_base64url :
    b64encodeList ("???".data.map Char.toNat) = "Pz8/".data ∧
    specB64UrlEncode ("???".data.map Char.toNat) = "Pz8_".data ∧
    "Pz8/".data ≠ "Pz8_".data ∧
    render_mermaid_diagram (fun url => .ok ⟨200, url.map Char.toNat⟩)
        "???".data "default".data
      = .ok (("https://mermaid.ink/img/Pz8/?theme=default".data).map Char.toNat) :=
  ⟨rfl, rfl, by decide, rfl⟩

/-- C6: for an audio upload from a remote source URL, a transport failure or
a non-2xx response terminates the pipeline with the upstream-fetch failure
(the 400 `Failed to download audio from source URL` error); on a 2xx
response the upload proceeds with the returned bytes regardless of the
content type — the response is unchanged if the content type is replaced by
a conforming one — and a mismatch merely logs the warning. -/
theorem C6_audio_fetch_and_content_type (bucket region : Str)
    (fetch : Str → Except Str FetchResponse) (put : PutFn) (ts uid : Str)
    (req : AudioUploadRequest) :
    (∀ msg, fetch req.source_url = .error msg →
        upload_audio bucket region fetch put ts uid req
          = (.error ⟨400, "Failed to download audio from source URL: ".data
                            ++ msg⟩, [])) ∧
    (∀ resp, fetch req.source_url = .ok resp →
        resp.status < 200 ∨ 300 ≤ resp.status →
        upload_audio bucket region fetch put ts uid req
          = (.error ⟨400, "Failed to download audio from source URL: ".data
                            ++ exceptionText "status error".data⟩, [])) ∧
    (∀ resp, fetch req.source_url = .ok resp →
        200 ≤ resp.status → resp.status < 300 →
        (upload_audio bucket region fetch put ts uid req).1
            = (upload_audio bucket region
                (fun _ => .ok { resp with contentType := some "audio/mpeg".data })
                put ts uid req).1 ∧
        (("audio/".data).isPrefixOf (resp.contentType.getD []) = false →
            (upload_audio bucket region fetch put ts uid req).2
              = [audioContentTypeWarning resp.contentType])) := by
  refine ⟨?_, ?_, ?_⟩
  · intro msg hfetch
    simp [upload_audio, hfetch]
  · intro resp hfetch hstatus
    simp [upload_audio, hfetch, hstatus]
  · intro resp hfetch h2 h3
    have hnot : ¬(resp.status < 200 ∨ 300 ≤ resp.status) := by omega
    constructor
    · simp only [upload_audio, hfetch, hnot, if_false]
      cases upload_to_s3_bucket bucket region put resp.content
          (podcastObjectKey req.user_id ts uid req.file_name)
          req.content_type <;> rfl
    · intro hmismatch
      simp only [upload_audio, hfetch, hnot, if_false, hmismatch]
      cases upload_to_s3_bucket bucket region put resp.content
          (podcastObjectKey req.user_id ts uid req.file_name)
          req.content_type <;> rfl

/-- C6 witness: a transport failure on the fetch yields the terminal
upstream-fetch error and no warning. -/
theorem C6_audio_fetch_and_content_type_witness :
    upload_audio "b".data "r".data (fun _ => .error "timed out".data)
        (fun _ _ _ => .ok ()) "t".data "u".data
        ⟨"http://x/a.mp3".data, "a.mp3".data, "u1".data, "audio/mpeg".data⟩
      = (.error ⟨400, "Failed to download audio from source URL: ".data
                        ++ "timed out".data⟩, []) :=
  (C6_audio_fetch_and_content_type "b".data "r".data
      (fun _ => .error "timed out".data) (fun _ _ _ => .ok ()) "t".data "u".data
      ⟨"http://x/a.mp3".data, "a.mp3".data, "u1".data, "audio/mpeg".data⟩).1
    "timed out".data rfl

/-- C7, amended: in the standalone service both render endpoints suffix the
filename with `.png` unless it already ends with `.png` case-insensitively
(so `a.PNG` is also left unchanged), and the composed diagram/code keys use
the suffixed name; the media router instead uses a caller-supplied non-empty
filename verbatim — only when the filename is missing or empty (Python's
falsy `or`) does it fall back to the generated name ending in `.png`. -/
theorem C7_png_suffix (user ts uid fn : Str) :
    ((".png".data).isSuffixOf (fn.map Char.toLower) = true →
        ensurePngExtension fn = fn) ∧
    ((".png".data).isSuffixOf (fn.map Char.toLower) = false →
        ensurePngExtension fn = fn ++ ".png".data) ∧
    (".png".data).isSuffixOf ((ensurePngExtension fn).map Char.toLower) = true ∧
    diagramObjectKey user ts uid fn
      = "diagrams/".data ++ user ++ "/".data ++ ts ++ "_".data ++ uid
          ++ "_".data ++ ensurePngExtension fn ∧
    codeObjectKey user ts uid fn
      = "code/".data ++ user ++ "/".data ++ ts ++ "_".data ++ uid
          ++ "_".data ++ ensurePngExtension fn ∧
    (fn ≠ [] → mediaMermaidFileName ts uid (some fn) = fn) ∧
    mediaMermaidFileName ts uid (some [])
      = ts ++ "_".data ++ uid ++ ".png".data ∧
    mediaMermaidFileName ts uid none = ts ++ "_".data ++ uid ++ ".png".data :=
  ⟨ensurePng_already fn, ensurePng_appends fn, ensurePng_endsWith fn,
   rfl, rfl,
   fun h => by simp [mediaMermaidFileName, orDefault, h],
   by simp [mediaMermaidFileName, orDefault],
   rfl⟩

/-- C7 witness: `a.PNG` is kept unchanged, `d.txt` becomes `d.txt.png`, and
the media router keeps the non-empty supplied name `d.txt` verbatim. -/
theorem C7_png_suffix_witness :
    ensurePngExtension "a.PNG".data = "a.PNG".data ∧
    ensurePngExtension "d.txt".data = "d.txt".data ++ ".png".data ∧
    mediaMermaidFileName "t".data "u".data (some "d.txt".data) = "d.txt".data :=
  ⟨(C7_png_suffix [] [] [] "a.PNG".data).1 (by decide),
   (C7_png_suffix [] [] [] "d.txt".data).2.1 (by decide),
   (C7_png_suffix [] "t".data "u".data "d.txt".data).2.2.2.2.2.1 (by decide)⟩

/-- C7 counterexample: a successful render-and-upload through the media
router with the supplied filename `diagram.txt` stores under
`generated/mermaid/u/diagram.txt`, which does not end in `.png` — the claimed
suffixing never happens there. -/
theorem C7_media_keeps_raw_filename :
    handle_mermaid_render "b".data "r".data (fun _ => .ok ⟨200, [137]⟩)
        (fun _ _ _ => .ok ()) "t".data "u".data
        ⟨"graph TD".data, "default".data, some "diagram.txt".data⟩
      = .ok ⟨true, publicUrl "b".data "r".data "generated/mermaid/u/diagram.txt".data,
             "Mermaid diagram rendered and uploaded successfully".data⟩ ∧
    (".png".data).isSuffixOf "generated/mermaid/u/diagram.txt".data = false :=
  ⟨rfl, by decide⟩

/-- C8, amended: the standalone multipart image endpoint rejects a missing,
empty or non-`image/` content type with the 400 `File must be an image`
error, independently of the request body and of the store client (so nothing
is read or stored); the media router's multipart image endpoint performs no
such validation. -/
theorem C8_image_file_content_type_rejected (bucket region : Str)
    (ts uid user : Str) (ct : Option Str)
    (h : ("image/".data).isPrefixOf (ct.getD []) = false) :
    ∀ (put : PutFn) (fn : Str) (content : List Nat),
      upload_image_file bucket region put ts uid user ct fn content
        = .error ⟨400, "File must be an image".data⟩ := by
  intro put fn content
  cases ct with
  | none => rfl
  | some c =>
    by_cases hc : c = []
    · simp [upload_image_file, hc]
    · simp only [Option.getD_some] at h
      simp [upload_image_file, hc, h]

/-- C8 witness: `text/plain` is rejected by the standalone endpoint even with
a store client that would succeed. -/
theorem C8_image_file_content_type_rejected_witness :
    upload_image_file "b".data "r".data (fun _ _ _ => .ok ()) "t".data "u".data
        "u1".data (some "text/plain".data) "f.txt".data [1]
      = .error ⟨400, "File must be an image".data⟩ :=
  C8_image_file_content_type_rejected "b".data "r".data "t".data "u".data
    "u1".data (some "text/plain".data) (by decide) (fun _ _ _ => .ok ())
    "f.txt".data [1]

/-- C8 counterexample: the media router's image-file endpoint accepts and
stores a `text/plain` upload, returning a success response where the claim
requires a 400 rejection. -/
theorem C8_media_accepts_any_content_type :
    media_upload_image_file "b".data "r".data (fun _ _ _ => .ok ()) "u".data
        (some "text/plain".data) "f.txt".data [1, 2]
      = .ok ⟨true, publicUrl "b".data "r".data "images/u/f.txt".data,
             "Upload successful".data⟩ := rfl

/-- C9, amended: both health checks are total functions — they never raise
and always return a structured healthy/unhealthy payload; the router app's
probe always returns HTTP 200 as claimed, but the standalone service returns
503 (not a 200-equivalent) when the store probe fails, embedding the error
detail. -/
theorem C9_health_check_total_structured (probe : Except Str Unit) :
    (app_health_check probe).1 = 200 ∧
    ((app_health_check probe).2.status = "healthy".data ∨
       (app_health_check probe).2.status = "unhealthy".data) ∧
    ((health_check probe).1 = 200 ∨ (health_check probe).1 = 503) ∧
    ((health_check probe).2.status = "healthy".data ∨
       (health_check probe).2.status = "unhealthy".data) ∧
    (∀ e, probe = .error e →
        health_check probe = (503, ⟨"unhealthy".data, some e⟩) ∧
        app_health_check probe = (200, ⟨"unhealthy".data, some e⟩)) := by
  cases probe <;>
    simp [health_check, app_health_check]

/-- C9 witness: a failing probe on the standalone health check yields the
structured 503 unhealthy payload. -/
theorem C9_health_check_total_structured_witness :
    health_check (.error "conn refused".data)
      = (503, ⟨"unhealthy".data, some "conn refused".data⟩) :=
  ((C9_health_check_total_structured (.error "conn refused".data)).2.2.2.2
      "conn refused".data rfl).1

/-- C9 counterexample: the standalone `/health` with an unreachable store
responds with status 503, not the claimed 200-equivalent. -/
theorem C9_unhealthy_returns_503 :
    (health_check (.error "connection refused".data)).1 = 503 ∧ (503 : Nat) ≠ 200 :=
  ⟨rfl, by decide⟩

/-- C10: the generic upload endpoint of the standalone app ignores the
`user_email` form field — two requests differing only in that field, with
the same generated unique id and timestamp, produce identical responses. -/
theorem C10_user_email_unused (bucket region : Str) (put : PutFn) (ts uid : Str)
    (email1 email2 file_type file_name : Str) (ct : Option Str)
    (content : List Nat) :
    upload_generic_file bucket region put ts uid email1 file_type file_name
        ct content
      = upload_generic_file bucket region put ts uid email2 file_type file_name
          ct content := rfl
